import Mathlib

/-!
Verification of the arXiv MCP server's search tool
(`src/arxiv_mcp_server/tools/search.py` and
`src/arxiv_mcp_server/tools/arxiv_modified.py`) against its
natural-language specification.

The Python functions are shallowly embedded as Lean functions.  Strings
are Lean `String`s manipulated through their underlying `List Char`;
Python `datetime` values are modelled by a record of calendar fields
(the `strftime` format used by the code only reads year .. minute);
`dateutil.parser.parse` is an external collaborator and is modelled as
an explicit parameter of type `String → Except String PyDateTime`
(`.error msg` models the parser raising with message `msg`); the
settings ceiling `settings.MAX_RESULTS` is likewise passed as an
explicit integer parameter.  Fallible code returns `Except`.
-/

namespace ArxivMcp

/-! ## Basic string machinery (Python semantics) -/

/-- Does the character list `s` start with `pat`?  (Python `str.startswith`.) -/
def listStartsWith : List Char → List Char → Bool
  | _, [] => true
  | [], _ :: _ => false
  | c :: s, p :: pat => c = p && listStartsWith s pat

/-- Does `pat` occur as a contiguous substring of `s`?  (Python `pat in s`.) -/
def listHasSub : List Char → List Char → Bool
  | [], pat => pat.isEmpty
  | c :: s, pat => listStartsWith (c :: s) pat || listHasSub s pat

/-- `pat` occurs as a contiguous substring of the string `s`. -/
def strHasSub (s pat : String) : Bool :=
  listHasSub s.data pat.data

/-- Python whitespace characters recognised by `str.split()` (ASCII part). -/
def isPyWhitespace (c : Char) : Bool :=
  c = ' ' || c = '\t' || c = '\n' || c = '\x0d' || c = '\x0b' || c = '\x0c'

/-- Helper for `pySplitWs`: accumulates the current word (reversed). -/
def pySplitWsAux : List Char → List Char → List (List Char)
  | [], acc => if acc.isEmpty then [] else [acc.reverse]
  | c :: rest, acc =>
    if isPyWhitespace c then
      if acc.isEmpty then pySplitWsAux rest []
      else acc.reverse :: pySplitWsAux rest []
    else pySplitWsAux rest (c :: acc)

/-- Python `str.split()` with no argument: split on runs of whitespace,
discarding empty chunks. -/
def pySplitWs (s : String) : List String :=
  (pySplitWsAux s.data []).map String.mk

/-- Python `sep.join(xs)`: concatenation of `xs` with `sep` between
consecutive elements. -/
def pyJoin (sep : String) : List String → String
  | [] => ""
  | [x] => x
  | x :: y :: rest => x ++ sep ++ pyJoin sep (y :: rest)

/-- Helper for `pyReplaceSpaceWithAnd`: character-wise recursion. -/
def replaceSpaceAnd : List Char → String
  | [] => ""
  | c :: rest => (if c = ' ' then "+AND+" else String.mk [c]) ++ replaceSpaceAnd rest

/-- Python `s.replace(' ', '+AND+')`: every space character becomes the
provider's AND token, all other characters are kept. -/
def pyReplaceSpaceWithAnd (s : String) : String :=
  replaceSpaceAnd s.data

/-- Helper for `pySplitOnSpace`: accumulates the current chunk (reversed). -/
def splitOnSpaceAux : List Char → List Char → List (List Char)
  | [], acc => [acc.reverse]
  | c :: rest, acc =>
    if c = ' ' then acc.reverse :: splitOnSpaceAux rest []
    else splitOnSpaceAux rest (c :: acc)

/-- Python `s.split(' ')`: split on every single space, keeping empty
chunks. -/
def pySplitOnSpace (s : String) : List String :=
  (splitOnSpaceAux s.data []).map String.mk

/-- One step of a left-fold join: start with the first token, then append
separator and token. -/
def joinStep (sep : String) (acc : Option String) (x : String) : Option String :=
  match acc with
  | none => some x
  | some a => some (a ++ sep ++ x)

/-- Joining a token list with a separator, written as a left fold — the
specification-side counterpart of `pyJoin`. -/
def joinTokens (sep : String) (xs : List String) : String :=
  (xs.foldl (joinStep sep) none).getD ""

/-! ## Query compiler: text clause (`_build_text_query`) -/

/-- The provider's known field specifiers, in source order. -/
def fieldSpecifiers : List String := ["all:", "ti:", "abs:", "au:", "cat:"]

/-- Substring test `any(field in query for field in [...])` from
`_build_text_query`: containment anywhere in the string. -/
def hasFieldSpecifier (query : String) : Bool :=
  fieldSpecifiers.any (fun f => strHasSub query f)

/-- Model of `_build_text_query` (search.py lines 71-98). -/
def _build_text_query (query : String) : String :=
  if hasFieldSpecifier query then
    pyReplaceSpaceWithAnd query
  else if query.data.any (fun c => c = '"') then
    "all:" ++ query
  else
    let terms := pySplitWs query
    if terms.length > 1 then
      pyJoin "+AND+" (terms.map (fun t => "all:" ++ t))
    else
      "all:" ++ query

/-- The text clause as the specification words it (with the single-term
branch amended to emit `all:` followed by the original query): used to
state the refinement of `_build_text_query`. -/
def specTextClause (q : String) : String :=
  if hasFieldSpecifier q then
    joinTokens "+AND+" (pySplitOnSpace q)
  else if strHasSub q "\"" then
    "all:" ++ q
  else if 1 < (pySplitWs q).length then
    joinTokens "+AND+" ((pySplitWs q).map (fun t => "all:" ++ t))
  else
    "all:" ++ q

/-! ## Query compiler: category clause (`_build_category_filter`) -/

/-- Model of `_build_category_filter` (search.py lines 59-68):
`'+OR+'.join(f"cat:{cat}" for cat in categories)`. -/
def _build_category_filter (categories : List String) : String :=
  pyJoin "+OR+" (categories.map (fun cat => "cat:" ++ cat))

/-! ## Query compiler: date clause (`_build_date_range_filter`) -/

/-- Calendar fields of a Python `datetime` as far as the code reads them
(the `strftime` format `%Y%m%d%H%M` stops at minutes).  The bounds are
the invariants `datetime` itself enforces. -/
structure PyDateTime where
  year : Nat
  month : Nat
  day : Nat
  hour : Nat
  minute : Nat
  year_ge : 1 ≤ year
  year_le : year ≤ 9999
  month_le : month ≤ 12
  day_le : day ≤ 31
  hour_le : hour ≤ 23
  minute_le : minute ≤ 59

/-- The decimal digit character for `n % 10`. -/
def digitOf (n : Nat) : Char := Char.ofNat (48 + n % 10)

/-- Model of `d.strftime('%Y%m%d%H%M')`: year zero-padded to four digits,
month, day, hour and minute to two each. -/
def strftimeYmdHM (d : PyDateTime) : String :=
  String.mk [digitOf (d.year / 1000), digitOf (d.year / 100),
             digitOf (d.year / 10), digitOf d.year,
             digitOf (d.month / 10), digitOf d.month,
             digitOf (d.day / 10), digitOf d.day,
             digitOf (d.hour / 10), digitOf d.hour,
             digitOf (d.minute / 10), digitOf d.minute]

/-- The external `dateutil.parser.parse`, as a parameter: `.ok d` models a
successful parse, `.error msg` models the parser raising `ValueError`
(or a subclass) with message `msg`. -/
def DateParser : Type := String → Except String PyDateTime

/-- One bound of the date range: `if date_x: ... = parser.parse(date_x)...`.
Python truthiness makes both a missing key and an empty string fall back
to the default. -/
def resolveDateBound (parse : DateParser) (dflt : String) :
    Option String → Except String String
  | none => Except.ok dflt
  | some s =>
    if s.isEmpty then Except.ok dflt
    else
      match parse s with
      | Except.error e => Except.error e
      | Except.ok d => Except.ok (strftimeYmdHM d)

/-- Model of `_build_date_range_filter` (search.py lines 101-123).
`now` is `datetime.now(timezone.utc)` at call time.  A parse failure is
re-raised as `ValueError("Invalid date format: " + msg)`, modelled as
`Except.error`. -/
def _build_date_range_filter (parse : DateParser) (now : PyDateTime)
    (dateFrom dateTo : Option String) : Except String String :=
  match resolveDateBound parse "197001010000" dateFrom with
  | Except.error e => Except.error ("Invalid date format: " ++ e)
  | Except.ok fromF =>
    match resolveDateBound parse (strftimeYmdHM now) dateTo with
    | Except.error e => Except.error ("Invalid date format: " ++ e)
    | Except.ok toF =>
      Except.ok ("submittedDate:[" ++ fromF ++ "+TO+" ++ toF ++ "]")

/-! ## Query compiler: assembly (`_build_query`) -/

/-- The caller's arguments dictionary, after the tool schema: `query` is
required, everything else optional. -/
structure SearchArguments where
  query : String
  maxResults : Option Int := none
  dateFrom : Option String := none
  dateTo : Option String := none
  categories : Option (List String) := none
  sortByMethod : Option String := none

/-- Python truthiness of `arguments.get("categories")`: a present,
non-empty list. -/
def categoriesTruthy (a : SearchArguments) : Bool :=
  match a.categories with
  | none => false
  | some cs => !cs.isEmpty

/-- Model of `_build_query` (search.py lines 126-169): category clause if
categories are truthy, then the text clause, then the date clause, joined
with `+AND+`.  The `ValueError` from the date builder propagates. -/
def _build_query (parse : DateParser) (now : PyDateTime)
    (a : SearchArguments) : Except String String :=
  let baseParts : List String :=
    match a.categories with
    | some (c :: cs) => [_build_category_filter (c :: cs), _build_text_query a.query]
    | _ => [_build_text_query a.query]
  match _build_date_range_filter parse now a.dateFrom a.dateTo with
  | Except.error e => Except.error e
  | Except.ok dateClause => Except.ok (pyJoin "+AND+" (baseParts ++ [dateClause]))

/-! ## Result normalizer (`_process_paper`) -/

/-- The fields of an `arxiv.Result` that `_process_paper` reads.
`publishedIso` stands for `paper.published.isoformat()`. -/
structure Paper where
  shortId : String
  title : String
  authors : List String
  summary : String
  categories : List String
  publishedIso : String
  pdfUrl : String

/-- The output schema of `_process_paper`. -/
structure NormalizedPaper where
  id : String
  title : String
  authors : List String
  abstract : String
  categories : List String
  published : String
  url : String
  resourceUri : String

/-- Model of `_process_paper` (search.py lines 31-57). -/
def _process_paper (p : Paper) : NormalizedPaper :=
  { id := p.shortId
    title := p.title
    authors := p.authors
    abstract := p.summary
    categories := p.categories
    published := p.publishedIso
    url := p.pdfUrl
    resourceUri := "arxiv://" ++ p.shortId }

/-! ## JSON values and response payloads -/

/-- JSON values, as the structured argument of `json.dumps`. -/
inductive Json where
  | str (s : String)
  | num (n : Int)
  | arr (elems : List Json)
  | obj (members : List (String × Json))

/-- The JSON object `_process_paper`'s dictionary serializes to. -/
def paperJson (p : NormalizedPaper) : Json :=
  Json.obj [("id", Json.str p.id), ("title", Json.str p.title),
            ("authors", Json.arr (p.authors.map Json.str)),
            ("abstract", Json.str p.abstract),
            ("categories", Json.arr (p.categories.map Json.str)),
            ("published", Json.str p.published),
            ("url", Json.str p.url),
            ("resource_uri", Json.str p.resourceUri)]

/-- The success envelope `response_data` (search.py lines 233-236). -/
def envelopeJson (results : List NormalizedPaper) : Json :=
  Json.obj [("total_results", Json.num results.length),
            ("papers", Json.arr (results.map paperJson))]

/-- The validation-error object (search.py lines 242-248). -/
def validationErrorJson (msg : String) : Json :=
  Json.obj [("error", Json.str msg), ("type", Json.str "validation_error")]

/-- The text of a returned `TextContent`: either `json.dumps(j, indent=2)`
of a JSON value, or a plain formatted string. -/
inductive Payload where
  | jsonDump (j : Json)
  | plain (s : String)

/-- A `types.TextContent(type="text", text=...)` value. -/
structure TextContent where
  type : String
  text : Payload

/-! ## Search orchestrator (`handle_search`) -/

/-- The two `arxiv.SortCriterion` values the handler uses. -/
inductive SortCriterion where
  | relevance
  | submittedDate

/-- Resolution of `sort_by_method` (search.py lines 210-216). -/
def resolveSortBy (m : Option String) : SortCriterion :=
  match m with
  | none => SortCriterion.relevance
  | some s => if s = "submitted" then SortCriterion.submittedDate else SortCriterion.relevance

/-- The `arxiv.Search` object handed to the provider client. -/
structure ArxivSearch where
  query : String
  maxResults : Int
  sortBy : SortCriterion

/-- What `client.results(search)` does: yield a (lazily consumed) sequence
of records, or raise. A `ValueError` is caught by the handler's first
`except` arm, any other exception by the catch-all. -/
inductive ProviderOutcome where
  | yields (papers : List Paper)
  | raisesValueError (msg : String)
  | raisesOther (msg : String)

/-- Clamping of `max_results` (search.py line 208):
`min(int(arguments.get("max_results", 10)), settings.MAX_RESULTS)`. -/
def clampMaxResults (requested : Option Int) (ceiling : Int) : Int :=
  min (requested.getD 10) ceiling

/-- The consumption loop (search.py lines 226-231): append the processed
record, then break once `len(results) >= max_results`. -/
def consumeLoop (stream : List Paper) (results : List NormalizedPaper)
    (maxResults : Int) : List NormalizedPaper :=
  match stream with
  | [] => results
  | p :: rest =>
    let results' := results ++ [_process_paper p]
    if (results'.length : Int) ≥ maxResults then results'
    else consumeLoop rest results' maxResults

/-- Model of `handle_search` (search.py lines 172-250).  `parse`, `now`,
`ceiling` and the provider's behaviour are explicit parameters standing
for the external collaborators. -/
def handle_search (parse : DateParser) (now : PyDateTime) (ceiling : Int)
    (provider : ArxivSearch → ProviderOutcome) (args : SearchArguments) :
    List TextContent :=
  let maxResults := clampMaxResults args.maxResults ceiling
  let sortBy := resolveSortBy args.sortByMethod
  match _build_query parse now args with
  | Except.error e =>
    [{ type := "text", text := Payload.jsonDump (validationErrorJson e) }]
  | Except.ok q =>
    match provider { query := q, maxResults := maxResults, sortBy := sortBy } with
    | ProviderOutcome.raisesValueError m =>
      [{ type := "text", text := Payload.jsonDump (validationErrorJson m) }]
    | ProviderOutcome.raisesOther m =>
      [{ type := "text", text := Payload.plain ("Error: " ++ m) }]
    | ProviderOutcome.yields papers =>
      let results := consumeLoop papers [] maxResults
      [{ type := "text", text := Payload.jsonDump (envelopeJson results) }]

/-! ## Response shape discriminators -/

/-- Is this payload the validation-error object
`("error": msg, "type": "validation_error")`? -/
def isValidationPayload : Payload → Bool
  | Payload.jsonDump (Json.obj [("error", Json.str _), ("type", Json.str "validation_error")]) => true
  | _ => false

/-- Is this payload a success envelope
`("total_results": n, "papers": [...])`? -/
def isEnvelopePayload : Payload → Bool
  | Payload.jsonDump (Json.obj [("total_results", Json.num _), ("papers", Json.arr _)]) => true
  | _ => false

/-- Is this payload a plain error line starting with `Error: `? -/
def isPlainErrorPayload : Payload → Bool
  | Payload.plain s => listStartsWith s.data "Error: ".data
  | _ => false

/-- A well-formed handler response: a single `TextContent` of type `text`
carrying either the JSON envelope, the validation-error object, or a
human-readable `Error: ` line. -/
def isWellFormedResponse : List TextContent → Bool
  | [c] => c.type = "text" &&
      (isEnvelopePayload c.text || isValidationPayload c.text || isPlainErrorPayload c.text)
  | _ => false

/-! ## URL formatting (`MyArxivClient._format_url`, arxiv_modified.py) -/

/-- CPython `urllib.parse` always-safe bytes: ASCII letters, digits and
`_.-~`. -/
def alwaysSafeByte (b : Nat) : Bool :=
  (65 ≤ b && b ≤ 90) || (97 ≤ b && b ≤ 122) || (48 ≤ b && b ≤ 57) ||
  b = 95 || b = 46 || b = 45 || b = 126

/-- Uppercase hexadecimal digit for `n < 16`. -/
def hexDigitOf (n : Nat) : Char :=
  if n < 10 then Char.ofNat (48 + n) else Char.ofNat (55 + n)

/-- Percent-encoding `%XX` of one byte. -/
def percentEncodeByte (b : Nat) : String :=
  String.mk ['%', hexDigitOf (b / 16 % 16), hexDigitOf (b % 16)]

/-- `urllib.parse.quote` on one byte of the UTF-8 encoding: kept verbatim
when always-safe or in the caller's `safe` set, percent-encoded otherwise. -/
def quoteByte (safe : List Nat) (b : Nat) : String :=
  if alwaysSafeByte b || safe.contains b then String.mk [Char.ofNat b]
  else percentEncodeByte b

/-- `urllib.parse.quote(s, safe)` over the bytes of `s`: the
concatenation of each byte's quoting. -/
def pyQuote (safe : List Nat) : List Nat → String
  | [] => ""
  | b :: rest => quoteByte safe b ++ pyQuote safe rest

/-- Character-wise `str.replace(' ', '+')`. -/
def replaceSpacePlus (s : String) : String :=
  String.mk (s.data.map (fun c => if c = ' ' then '+' else c))

/-- CPython `urllib.parse.quote_plus(s, safe)`: when the string contains a
space, quote with space added to `safe` and then turn the spaces into
`+`; otherwise plain `quote`. -/
def pyQuotePlus (safe : List Nat) (bytes : List Nat) : String :=
  if bytes.contains 32 then replaceSpacePlus (pyQuote (safe ++ [32]) bytes)
  else pyQuote safe bytes

/-- The `safe=':+[]'` byte set of `MyArxivClient._format_url`
(arxiv_modified.py line 20). -/
def searchQuerySafe : List Nat := [58, 43, 91, 93]

/-- The encoding `_format_url` applies to the `search_query` value:
`quote_plus(search_query, safe=':+[]')` over its UTF-8 bytes. -/
def encodeSearchQuery (bytes : List Nat) : String :=
  pyQuotePlus searchQuerySafe bytes

/-- The per-byte mapping the claim describes: space to `+`, everything
else as `quote` with the `:+[]` safe set. -/
def encodeSearchQueryByte (b : Nat) : String :=
  if b = 32 then "+" else quoteByte searchQuerySafe b

/-- RFC 3986 reserved bytes: gen-delims and sub-delims. -/
def reservedBytes : List Nat :=
  [58, 47, 63, 35, 91, 93, 64, 33, 36, 38, 39, 40, 41, 42, 43, 44, 59, 61]

/-- The byte-wise encoding the specification describes for the
`search_query` parameter: used to state the refinement of
`encodeSearchQuery`. -/
def specEncodeBytes : List Nat → String
  | [] => ""
  | b :: rest => encodeSearchQueryByte b ++ specEncodeBytes rest

/-! ## Digit-format predicate for the date clause -/

/-- Is this character an ASCII decimal digit? -/
def isDigitByte (c : Char) : Bool :=
  48 ≤ c.toNat && c.toNat ≤ 57

/-- Is this string exactly twelve decimal digits (the `YYYYMMDDhhmm`
shape)? -/
def isTwelveDigits (s : String) : Bool :=
  (s.length == 12) && s.data.all isDigitByte

/-! ## Concrete fixtures -/

/-- A fixed `datetime.now(timezone.utc)` instant for concrete runs. -/
def nowFix : PyDateTime :=
  ⟨2025, 10, 12, 0, 0, by decide, by decide, by decide, by decide, by decide, by decide⟩

/-- A date parser that rejects every string, with `dateutil`'s message
shape. -/
def parseFailAll : DateParser :=
  fun s => Except.error ("Unknown string format: " ++ s)

/-- The datetime `2022-01-01T00:00` as a concrete parse result. -/
def dtFix2022 : PyDateTime :=
  ⟨2022, 1, 1, 0, 0, by decide, by decide, by decide, by decide, by decide, by decide⟩

/-- A date parser that accepts exactly the string `2022-01-01` and rejects
every other string with `dateutil`'s message shape. -/
def parseOnlyFix : DateParser :=
  fun s => if s = "2022-01-01" then Except.ok dtFix2022
           else Except.error ("Unknown string format: " ++ s)

/-- A concrete provider record. -/
def paperFix : Paper :=
  { shortId := "2103.12345"
    title := "Test Paper"
    authors := ["Test Author"]
    summary := "Abstract"
    categories := ["cs.AI"]
    publishedIso := "2021-03-20T00:00:00+00:00"
    pdfUrl := "http://arxiv.org/pdf/2103.12345v1" }

/-! ## General lemmas about the string machinery -/

theorem strMk_append (a b : List Char) : String.mk (a ++ b) = String.mk a ++ String.mk b := rfl

theorem pyJoin_glue (sep a y : String) (r : List String) :
    pyJoin sep ((a ++ sep ++ y) :: r) = a ++ sep ++ pyJoin sep (y :: r) := by
  cases r with
  | nil => rfl
  | cons z r' => simp [pyJoin, String.append_assoc]

theorem joinTokens_aux (sep : String) (rest : List String) :
    ∀ a, ((rest.foldl (joinStep sep) (some a)).getD "") = pyJoin sep (a :: rest) := by
  induction rest with
  | nil => intro a; rfl
  | cons y r ih =>
    intro a
    have h1 : (y :: r).foldl (joinStep sep) (some a) = r.foldl (joinStep sep) (some (a ++ sep ++ y)) := rfl
    rw [h1, ih (a ++ sep ++ y), pyJoin_glue]
    rfl

/-- The fold-based join agrees with the structural join. -/
theorem joinTokens_eq_pyJoin (sep : String) (xs : List String) :
    joinTokens sep xs = pyJoin sep xs := by
  cases xs with
  | nil => rfl
  | cons x rest =>
    show ((rest.foldl (joinStep sep) (some x)).getD "") = _
    rw [joinTokens_aux]

theorem pyJoin_cons_of_ne_nil (sep x : String) {L : List String} (h : L ≠ []) :
    pyJoin sep (x :: L) = x ++ sep ++ pyJoin sep L := by
  cases L with
  | nil => exact absurd rfl h
  | cons y r => rfl

theorem splitOnSpaceAux_ne_nil (l acc : List Char) : splitOnSpaceAux l acc ≠ [] := by
  induction l generalizing acc with
  | nil => simp [splitOnSpaceAux]
  | cons c rest ih =>
    by_cases hc : c = ' ' <;> simp [splitOnSpaceAux, hc, ih]

/-- Python's `replace(' ', sep)` is `sep.join(s.split(' '))`: auxiliary
form over the accumulator. -/
theorem replace_split_aux (l : List Char) :
    ∀ acc, pyJoin "+AND+" ((splitOnSpaceAux l acc).map String.mk)
      = String.mk acc.reverse ++ replaceSpaceAnd l := by
  induction l with
  | nil =>
    intro acc
    simp [splitOnSpaceAux, pyJoin, replaceSpaceAnd]
  | cons c rest ih =>
    intro acc
    by_cases hc : c = ' '
    · have hne : (splitOnSpaceAux rest []).map String.mk ≠ [] := by
        simp [splitOnSpaceAux_ne_nil]
      rw [show splitOnSpaceAux (c :: rest) acc = acc.reverse :: splitOnSpaceAux rest [] by
            simp [splitOnSpaceAux, hc]]
      rw [List.map_cons, pyJoin_cons_of_ne_nil _ _ hne, ih []]
      simp [replaceSpaceAnd, hc, String.append_assoc]
    · rw [show splitOnSpaceAux (c :: rest) acc = splitOnSpaceAux rest (c :: acc) by
            simp [splitOnSpaceAux, hc]]
      rw [ih (c :: acc)]
      simp [replaceSpaceAnd, hc, List.reverse_cons, strMk_append, String.append_assoc]

/-- Replacing every space with the AND token equals splitting on spaces
and joining with the AND token. -/
theorem replace_eq_join_split (s : String) :
    pyReplaceSpaceWithAnd s = joinTokens "+AND+" (pySplitOnSpace s) := by
  rw [joinTokens_eq_pyJoin]
  show replaceSpaceAnd s.data = _
  rw [show pySplitOnSpace s = (splitOnSpaceAux s.data []).map String.mk from rfl,
      replace_split_aux s.data []]
  simp

/-- Single-character substring containment is a character search. -/
theorem listHasSub_singleton (l : List Char) (c : Char) :
    listHasSub l [c] = l.any (fun x => x = c) := by
  induction l with
  | nil => rfl
  | cons x rest ih =>
    simp [listHasSub, listStartsWith, ih, Bool.and_comm]

/-! ## Claim C1: clamping of `max_results` -/

/-- C1 (counterexample): the clamp `min(requested, ceiling)` has no lower
bound — a requested value of `-1` (below the ceiling, so passed through
unchanged) yields a clamped value that is negative, refuting the claim's
`≥ 0` invariant. -/
theorem c1_counterexample :
    clampMaxResults (some (-1)) 100 = -1 ∧ ¬(0 ≤ clampMaxResults (some (-1)) 100) := by
  constructor
  · rfl
  · decide

/-- C1 (amended): the clamped `max_results` is always at most the
configured ceiling; a request at or below the ceiling passes through
unchanged; and the clamped value is nonnegative provided the requested
value (default 10) and the ceiling are nonnegative. -/
theorem c1_clamp_amended (requested : Option Int) (ceiling : Int) :
    clampMaxResults requested ceiling ≤ ceiling
    ∧ (requested.getD 10 ≤ ceiling → clampMaxResults requested ceiling = requested.getD 10)
    ∧ (0 ≤ requested.getD 10 → 0 ≤ ceiling → 0 ≤ clampMaxResults requested ceiling) :=
  ⟨min_le_right _ _, fun h => min_eq_left h, fun h1 h2 => le_min h1 h2⟩

/-- C1 (witness): the amended clamp facts evaluated at requested 5 with
ceiling 10. -/
theorem c1_clamp_amended_witness :
    clampMaxResults (some 5) 10 ≤ 10 ∧ clampMaxResults (some 5) 10 = 5
    ∧ 0 ≤ clampMaxResults (some 5) 10 := by
  obtain ⟨a, b, c⟩ := c1_clamp_amended (some 5) 10
  exact ⟨a, b (by decide), c (by decide) (by decide)⟩

/-! ## Claim C4: construction of the text clause -/

/-- C4 (counterexample): on the single-term query `"transformer "` (one
term after whitespace splitting) the code emits `all:` followed by the
original query, trailing space included — not `all:` followed by the
term as the claim states. -/
theorem c4_counterexample :
    pySplitWs "transformer " = ["transformer"]
    ∧ _build_text_query "transformer " = "all:transformer "
    ∧ _build_text_query "transformer " ≠ "all:transformer" := by
  refine ⟨by decide, by decide, ?_⟩
  intro h
  have : ("all:transformer " : String) = "all:transformer" := by
    rw [show ("all:transformer " : String) = _build_text_query "transformer " by decide]
    exact h
  simp at this

/-- C4 (amended): the text clause is built exactly as specified — with a
field specifier present, every space is replaced with `+AND+` (equally,
the query is split on single spaces and joined with `+AND+`); otherwise
a query containing a double quote is emitted as `all:` plus the query
unmodified; otherwise the query is split on whitespace and with more
than one term the terms are `+AND+`-joined as `all:` each, while with at
most one term `all:` plus the original query is emitted.  In particular
`"quantum computing"` yields `all:quantum+AND+all:computing` and
`"ti:neural networks"` yields `ti:neural+AND+networks`. -/
theorem c4_text_clause_amended :
    (∀ q : String, _build_text_query q = specTextClause q)
    ∧ _build_text_query "quantum computing" = "all:quantum+AND+all:computing"
    ∧ _build_text_query "ti:neural networks" = "ti:neural+AND+networks" := by
  refine ⟨?_, by decide, by decide⟩
  intro q
  rw [_build_text_query, specTextClause]
  have hq : (q.data.any fun c => c = '"') = strHasSub q "\"" :=
    (listHasSub_singleton q.data '"').symm
  by_cases h1 : hasFieldSpecifier q
  · simp only [h1, if_true]
    exact replace_eq_join_split q
  · simp only [h1, Bool.false_eq_true, if_false, hq]
    by_cases h2 : strHasSub q "\""
    · simp only [h2, if_true]
    · simp only [h2, Bool.false_eq_true, if_false]
      by_cases h3 : 1 < (pySplitWs q).length
      · simp only [gt_iff_lt, h3, if_true, joinTokens_eq_pyJoin]
      · simp only [gt_iff_lt, h3, if_false]

/-! ## Claim C6: construction of the category clause -/

/-- C6: for a non-empty category list the clause is `cat:` plus each code,
joined with `+OR+`, preserving the caller-supplied order with no
category dropped: it equals the fold-based join of the mapped codes, and
unfolds code by code from the head. -/
theorem c6_category_clause (cats : List String) (hne : cats ≠ []) :
    _build_category_filter cats = joinTokens "+OR+" (cats.map (fun c => "cat:" ++ c))
    ∧ ∀ c cs, cats = c :: cs →
        _build_category_filter cats
          = "cat:" ++ c ++ (if cs = [] then "" else "+OR+" ++ _build_category_filter cs) := by
  constructor
  · rw [joinTokens_eq_pyJoin]; rfl
  · intro c cs hcats
    subst hcats
    cases cs with
    | nil => simp [_build_category_filter, pyJoin]
    | cons d ds =>
      have hne2 : ((d :: ds).map (fun c => "cat:" ++ c)) ≠ [] := by simp
      show pyJoin "+OR+" _ = _
      rw [List.map_cons, pyJoin_cons_of_ne_nil _ _ hne2]
      simp [_build_category_filter, String.append_assoc]

/-- C6 (witness): the category clause for `["cs.AI", "cs.LG"]`. -/
theorem c6_category_clause_witness :
    _build_category_filter ["cs.AI", "cs.LG"]
      = joinTokens "+OR+" (["cs.AI", "cs.LG"].map (fun c => "cat:" ++ c)) :=
  (c6_category_clause ["cs.AI", "cs.LG"] (by simp)).1

/-! ## Claim C10: the field-specifier test is substring containment -/

/-- C10: the field-specifier test of `_build_text_query` is substring
containment anywhere in the query, so a query such as
`"my cat: whiskers"` — where `cat:` only occurs mid-phrase — takes the
already-field-qualified branch: spaces become `+AND+` and no `all:`
qualification is added to any term. -/
theorem c10_field_test_substring :
    (∀ q : String, hasFieldSpecifier q = true → _build_text_query q = pyReplaceSpaceWithAnd q)
    ∧ hasFieldSpecifier "my cat: whiskers" = true
    ∧ _build_text_query "my cat: whiskers" = "my+AND+cat:+AND+whiskers"
    ∧ strHasSub (_build_text_query "my cat: whiskers") "all:" = false := by
  refine ⟨?_, by decide, by decide, by decide⟩
  intro q h
  rw [_build_text_query]
  simp only [h, if_true]

/-- C10 (witness): the substring-containment branch evaluated at
`"my cat: whiskers"`. -/
theorem c10_field_test_substring_witness :
    _build_text_query "my cat: whiskers" = pyReplaceSpaceWithAnd "my cat: whiskers" :=
  c10_field_test_substring.1 "my cat: whiskers" (by decide)

/-! ## Claim C2: result cap and short-circuit consumption -/

theorem consumeLoop_length_le (papers : List Paper) :
    ∀ (acc : List NormalizedPaper) (m : Int), (acc.length : Int) < m →
      ((consumeLoop papers acc m).length : Int) ≤ m := by
  induction papers with
  | nil => intro acc m h; simpa [consumeLoop] using le_of_lt h
  | cons p rest ih =>
    intro acc m h
    simp only [consumeLoop]
    by_cases hge : ((acc ++ [_process_paper p]).length : Int) ≥ m
    · simp only [hge, if_true]
      simp only [List.length_append, List.length_cons, List.length_nil] at *
      push_cast at *
      omega
    · simp only [hge, if_false]
      apply ih
      simp only [List.length_append, List.length_cons, List.length_nil] at hge ⊢
      push_cast at *
      omega

theorem consumeLoop_shortcircuit (papers : List Paper) :
    ∀ (acc : List NormalizedPaper) (extra : List Paper) (m : Int),
      (acc.length : Int) < m → ((acc.length : Int) + papers.length ≥ m) →
      consumeLoop (papers ++ extra) acc m = consumeLoop papers acc m := by
  induction papers with
  | nil =>
    intro acc extra m h1 h2
    simp only [List.length_nil] at h2
    omega
  | cons p rest ih =>
    intro acc extra m h1 h2
    simp only [List.cons_append, consumeLoop]
    by_cases hge : ((acc ++ [_process_paper p]).length : Int) ≥ m
    · simp only [hge, if_true]
    · simp only [hge, if_false]
      apply ih
      · simp only [List.length_append, List.length_cons, List.length_nil] at hge ⊢
        push_cast at *
        omega
      · simp only [List.length_append, List.length_cons, List.length_nil] at h2 ⊢
        push_cast at *
        omega

/-- C2 (counterexample): with a requested (and clamped) `max_results` of
`0`, the loop appends the first provider record before checking the
limit, so the envelope holds one paper — more than the clamped limit. -/
theorem c2_counterexample :
    clampMaxResults (some 0) 100 = 0
    ∧ handle_search parseFailAll nowFix 100
        (fun _ => ProviderOutcome.yields [paperFix, paperFix])
        { query := "x", maxResults := some 0 }
      = [{ type := "text", text := Payload.jsonDump (envelopeJson [_process_paper paperFix]) }]
    ∧ (1 : Int) > clampMaxResults (some 0) 100 := ⟨rfl, rfl, by decide⟩

/-- C2 (amended): whenever the clamped `max_results` is at least one, the
envelope never holds more papers than the clamped limit, and consumption
short-circuits: once the provider sequence has reached the limit, any
further records of the sequence are never consumed. -/
theorem c2_limit_amended (parse : DateParser) (now : PyDateTime) (ceiling : Int)
    (args : SearchArguments) (papers extra : List Paper) (q : String)
    (hq : _build_query parse now args = Except.ok q)
    (hm : 1 ≤ clampMaxResults args.maxResults ceiling) :
    handle_search parse now ceiling (fun _ => ProviderOutcome.yields papers) args
      = [{ type := "text",
           text := Payload.jsonDump (envelopeJson
             (consumeLoop papers [] (clampMaxResults args.maxResults ceiling))) }]
    ∧ ((consumeLoop papers [] (clampMaxResults args.maxResults ceiling)).length : Int)
        ≤ clampMaxResults args.maxResults ceiling
    ∧ ((papers.length : Int) ≥ clampMaxResults args.maxResults ceiling →
        consumeLoop (papers ++ extra) [] (clampMaxResults args.maxResults ceiling)
          = consumeLoop papers [] (clampMaxResults args.maxResults ceiling)) := by
  refine ⟨?_, ?_, ?_⟩
  · simp only [handle_search, hq]
  · exact consumeLoop_length_le papers [] _ (by simpa using hm)
  · intro hlen
    exact consumeLoop_shortcircuit papers [] extra _ (by simpa using hm) (by simpa using hlen)

/-- C2 (witness): the amended cap and short-circuit facts at a concrete
request with `max_results` 1 against a two-record provider sequence. -/
theorem c2_limit_amended_witness :
    handle_search parseFailAll nowFix 100
        (fun _ => ProviderOutcome.yields [paperFix, paperFix])
        { query := "x", maxResults := some 1 }
      = [{ type := "text",
           text := Payload.jsonDump (envelopeJson
             (consumeLoop [paperFix, paperFix] [] (clampMaxResults (some 1) 100))) }]
    ∧ ((consumeLoop [paperFix, paperFix] [] (clampMaxResults (some 1) 100)).length : Int)
        ≤ clampMaxResults (some 1) 100
    ∧ (([paperFix, paperFix].length : Int) ≥ clampMaxResults (some 1) 100 →
        consumeLoop ([paperFix, paperFix] ++ [paperFix]) [] (clampMaxResults (some 1) 100)
          = consumeLoop [paperFix, paperFix] [] (clampMaxResults (some 1) 100)) :=
  c2_limit_amended parseFailAll nowFix 100 { query := "x", maxResults := some 1 }
    [paperFix, paperFix] [paperFix]
    "all:x+AND+submittedDate:[197001010000+TO+202510120000]" rfl (by decide)

/-! ## Claim C5: the date clause -/

theorem digitOf_isDigit (n : Nat) : isDigitByte (digitOf n) = true := by
  have h10 : n % 10 < 10 := Nat.mod_lt n (by decide)
  have hall : ∀ k, k < 10 → isDigitByte (Char.ofNat (48 + k)) = true := by decide
  exact hall (n % 10) h10

theorem strftime_twelve (d : PyDateTime) : isTwelveDigits (strftimeYmdHM d) = true := by
  simp [isTwelveDigits, strftimeYmdHM, String.length, digitOf_isDigit]

theorem resolveDateBound_ok (parse : DateParser) (dflt : String) (v : Option String) (s : String)
    (h : resolveDateBound parse dflt v = Except.ok s) :
    s = dflt ∨ ∃ d, s = strftimeYmdHM d := by
  cases v with
  | none =>
    simp only [resolveDateBound] at h
    exact Or.inl (Except.ok.inj h).symm
  | some str =>
    simp only [resolveDateBound] at h
    by_cases he : str.isEmpty
    · simp only [he, if_true] at h
      exact Or.inl (Except.ok.inj h).symm
    · simp only [he, Bool.false_eq_true, if_false] at h
      cases hp : parse str with
      | error e => rw [hp] at h; cases h
      | ok d => rw [hp] at h; exact Or.inr ⟨d, (Except.ok.inj h).symm⟩

theorem resolveDateBound_none (parse : DateParser) (dflt : String) :
    resolveDateBound parse dflt none = Except.ok dflt := rfl

theorem buildDateRange_ok (parse : DateParser) (now : PyDateTime)
    (df dt : Option String) (c : String)
    (h : _build_date_range_filter parse now df dt = Except.ok c) :
    ∃ fromS toS, c = "submittedDate:[" ++ fromS ++ "+TO+" ++ toS ++ "]"
      ∧ isTwelveDigits fromS = true ∧ isTwelveDigits toS = true
      ∧ (df = none → fromS = "197001010000")
      ∧ (dt = none → toS = strftimeYmdHM now) := by
  simp only [_build_date_range_filter] at h
  cases h1 : resolveDateBound parse "197001010000" df with
  | error e => rw [h1] at h; cases h
  | ok fromS =>
    rw [h1] at h
    cases h2 : resolveDateBound parse (strftimeYmdHM now) dt with
    | error e => rw [h2] at h; cases h
    | ok toS =>
      rw [h2] at h
      refine ⟨fromS, toS, (Except.ok.inj h).symm, ?_, ?_, ?_, ?_⟩
      · rcases resolveDateBound_ok _ _ _ _ h1 with h3 | ⟨d, h3⟩ <;> rw [h3]
        · decide
        · exact strftime_twelve d
      · rcases resolveDateBound_ok _ _ _ _ h2 with h3 | ⟨d, h3⟩ <;> rw [h3]
        · exact strftime_twelve now
        · exact strftime_twelve d
      · intro hdf; subst hdf
        exact (Except.ok.inj (resolveDateBound_none parse "197001010000" ▸ h1)).symm
      · intro hdt; subst hdt
        exact (Except.ok.inj (resolveDateBound_none parse (strftimeYmdHM now) ▸ h2)).symm

theorem pyJoin_append_last (sep : String) (xs : List String) (y : String) :
    ∃ pre, pyJoin sep (xs ++ [y]) = pre ++ y := by
  induction xs with
  | nil => exact ⟨"", by simp [pyJoin]⟩
  | cons x rest ih =>
    obtain ⟨pre, hp⟩ := ih
    have hne : rest ++ [y] ≠ [] := by simp
    refine ⟨x ++ sep ++ pre, ?_⟩
    rw [List.cons_append, pyJoin_cons_of_ne_nil _ _ hne, hp]
    simp [String.append_assoc]

/-- C5: every successfully compiled query ends with a date clause
`submittedDate:[from+TO+to]` whose bounds are both twelve decimal digits
(`YYYYMMDDhhmm`); an absent `date_from` yields the fixed epoch floor
`197001010000` and an absent `date_to` yields the formatted current UTC
instant — the clause is present even when neither bound is supplied. -/
theorem c5_date_clause (parse : DateParser) (now : PyDateTime) (args : SearchArguments)
    (q : String) (h : _build_query parse now args = Except.ok q) :
    ∃ pre fromS toS,
      q = pre ++ ("submittedDate:[" ++ fromS ++ "+TO+" ++ toS ++ "]")
      ∧ isTwelveDigits fromS = true ∧ isTwelveDigits toS = true
      ∧ (args.dateFrom = none → fromS = "197001010000")
      ∧ (args.dateTo = none → toS = strftimeYmdHM now) := by
  simp only [_build_query] at h
  cases hdr : _build_date_range_filter parse now args.dateFrom args.dateTo with
  | error e => rw [hdr] at h; cases h
  | ok c =>
    rw [hdr] at h
    obtain ⟨fromS, toS, hc, h12f, h12t, hdf, hdt⟩ := buildDateRange_ok _ _ _ _ _ hdr
    obtain ⟨pre, hpre⟩ := pyJoin_append_last "+AND+"
      (match args.categories with
        | some (c :: cs) => [_build_category_filter (c :: cs), _build_text_query args.query]
        | _ => [_build_text_query args.query]) c
    refine ⟨pre, fromS, toS, ?_, h12f, h12t, hdf, hdt⟩
    rw [← (Except.ok.inj h), hpre, hc]

/-- C5 (witness): the date-clause shape of the query compiled for a
request with neither bound supplied. -/
theorem c5_date_clause_witness :
    ∃ pre fromS toS,
      "all:x+AND+submittedDate:[197001010000+TO+202510120000]"
        = pre ++ ("submittedDate:[" ++ fromS ++ "+TO+" ++ toS ++ "]")
      ∧ isTwelveDigits fromS = true ∧ isTwelveDigits toS = true
      ∧ (({ query := "x" } : SearchArguments).dateFrom = none → fromS = "197001010000")
      ∧ (({ query := "x" } : SearchArguments).dateTo = none → toS = strftimeYmdHM nowFix) :=
  c5_date_clause parseFailAll nowFix { query := "x" }
    "all:x+AND+submittedDate:[197001010000+TO+202510120000]" rfl

/-! ## Claim C7: clause assembly -/

/-- C7 (counterexample): with categories supplied as the empty list, the
compiled query has no category clause at all (not even a `cat:`
substring), refuting "category clause present iff categories were
supplied". -/
theorem c7_counterexample :
    (({ query := "x", categories := some [] } : SearchArguments).categories ≠ none)
    ∧ _build_query parseFailAll nowFix { query := "x", categories := some [] }
        = Except.ok "all:x+AND+submittedDate:[197001010000+TO+202510120000]"
    ∧ strHasSub "all:x+AND+submittedDate:[197001010000+TO+202510120000]" "cat:" = false := by
  refine ⟨by simp, rfl, by decide⟩

/-- C7 (amended): every successfully compiled query is exactly the
`+AND+`-join, in fixed order, of the optional category clause, exactly
one text clause and exactly one `submittedDate:[from+TO+to]` clause; the
category clause is present iff a non-empty category list was supplied. -/
theorem c7_assembly_amended (parse : DateParser) (now : PyDateTime)
    (args : SearchArguments) (q : String)
    (h : _build_query parse now args = Except.ok q) :
    ∃ dateClause,
      _build_date_range_filter parse now args.dateFrom args.dateTo = Except.ok dateClause
      ∧ (∃ fromS toS, dateClause = "submittedDate:[" ++ fromS ++ "+TO+" ++ toS ++ "]")
      ∧ (categoriesTruthy args = true →
          ∃ c cs, args.categories = some (c :: cs)
            ∧ q = _build_category_filter (c :: cs) ++ "+AND+"
                ++ _build_text_query args.query ++ "+AND+" ++ dateClause)
      ∧ (categoriesTruthy args = false →
          q = _build_text_query args.query ++ "+AND+" ++ dateClause) := by
  simp only [_build_query] at h
  cases hdr : _build_date_range_filter parse now args.dateFrom args.dateTo with
  | error e => rw [hdr] at h; cases h
  | ok dc =>
    rw [hdr] at h
    obtain ⟨fromS, toS, hshape, _, _, _, _⟩ := buildDateRange_ok _ _ _ _ _ hdr
    refine ⟨dc, rfl, ⟨fromS, toS, hshape⟩, ?_, ?_⟩
    · intro htruthy
      cases hcat : args.categories with
      | none => simp [categoriesTruthy, hcat] at htruthy
      | some cs =>
        cases cs with
        | nil => simp [categoriesTruthy, hcat] at htruthy
        | cons c0 cs0 =>
          refine ⟨c0, cs0, rfl, ?_⟩
          rw [hcat] at h
          rw [← (Except.ok.inj h)]
          simp [pyJoin, String.append_assoc]
    · intro hfalse
      cases hcat : args.categories with
      | none =>
        rw [hcat] at h
        rw [← (Except.ok.inj h)]
        simp [pyJoin, String.append_assoc]
      | some cs =>
        cases cs with
        | nil =>
          rw [hcat] at h
          rw [← (Except.ok.inj h)]
          simp [pyJoin, String.append_assoc]
        | cons c0 cs0 => simp [categoriesTruthy, hcat] at hfalse

/-- C7 (witness): the clause assembly of the query compiled for a request
with one category. -/
theorem c7_assembly_amended_witness :
    ∃ dateClause,
      _build_date_range_filter parseFailAll nowFix
          ({ query := "x", categories := some ["cs.AI"] } : SearchArguments).dateFrom
          ({ query := "x", categories := some ["cs.AI"] } : SearchArguments).dateTo
        = Except.ok dateClause
      ∧ (∃ fromS toS, dateClause = "submittedDate:[" ++ fromS ++ "+TO+" ++ toS ++ "]")
      ∧ (categoriesTruthy { query := "x", categories := some ["cs.AI"] } = true →
          ∃ c cs, ({ query := "x", categories := some ["cs.AI"] } : SearchArguments).categories
              = some (c :: cs)
            ∧ "cat:cs.AI+AND+all:x+AND+submittedDate:[197001010000+TO+202510120000]"
              = _build_category_filter (c :: cs) ++ "+AND+"
                ++ _build_text_query "x" ++ "+AND+" ++ dateClause)
      ∧ (categoriesTruthy { query := "x", categories := some ["cs.AI"] } = false →
          "cat:cs.AI+AND+all:x+AND+submittedDate:[197001010000+TO+202510120000]"
            = _build_text_query "x" ++ "+AND+" ++ dateClause) :=
  c7_assembly_amended parseFailAll nowFix { query := "x", categories := some ["cs.AI"] }
    "cat:cs.AI+AND+all:x+AND+submittedDate:[197001010000+TO+202510120000]" rfl

/-! ## Claim C3: malformed dates yield a validation-error response -/

/-- C3 (counterexample): an empty `date_from` string is supplied and
unparseable (the parser rejects every string), yet the handler returns
the success envelope, not the validation-error object — Python
truthiness skips parsing of empty strings. -/
theorem c3_counterexample :
    parseFailAll "" = Except.error "Unknown string format: "
    ∧ handle_search parseFailAll nowFix 100 (fun _ => ProviderOutcome.yields [])
        { query := "x", dateFrom := some "" }
      = [{ type := "text", text := Payload.jsonDump (envelopeJson []) }]
    ∧ isValidationPayload (Payload.jsonDump (envelopeJson [])) = false :=
  ⟨rfl, rfl, rfl⟩

/-- C3 (amended): whenever a supplied non-empty `date_from` (or, with no
`date_from`, a supplied non-empty `date_to`) cannot be parsed,
`handle_search` returns a single text content whose payload is the
structured object with the `error` field `Invalid date format: ` plus
the parser's message and the `type` field `validation_error` — never an
unhandled fault. -/
theorem c3_validation_error_amended (parse : DateParser) (now : PyDateTime) (ceiling : Int)
    (provider : ArxivSearch → ProviderOutcome) (args : SearchArguments) :
    (∀ s m, args.dateFrom = some s → s.isEmpty = false → parse s = Except.error m →
        handle_search parse now ceiling provider args
          = [{ type := "text",
               text := Payload.jsonDump (validationErrorJson ("Invalid date format: " ++ m)) }])
    ∧ (∀ s m fromS, resolveDateBound parse "197001010000" args.dateFrom = Except.ok fromS →
        args.dateTo = some s → s.isEmpty = false → parse s = Except.error m →
        handle_search parse now ceiling provider args
          = [{ type := "text",
               text := Payload.jsonDump (validationErrorJson ("Invalid date format: " ++ m)) }]) := by
  constructor
  · intro s m hdf hne hparse
    simp only [handle_search, _build_query, _build_date_range_filter, resolveDateBound,
               hdf, hne, hparse, Bool.false_eq_true, if_false]
  · intro s m fromS hfrom hdt hne hparse
    simp only [handle_search, _build_query, _build_date_range_filter, hfrom, hdt]
    simp only [resolveDateBound, hne, Bool.false_eq_true, if_false, hparse]

/-- C3 (witness): the validation-error response for the malformed
`date_from` string `invalid-date`, and for a request whose `date_from`
parses (`2022-01-01`) while its non-empty `date_to` does not. -/
theorem c3_validation_error_amended_witness :
    (handle_search parseFailAll nowFix 100 (fun _ => ProviderOutcome.yields [])
        { query := "x", dateFrom := some "invalid-date" }
      = [{ type := "text",
           text := Payload.jsonDump (validationErrorJson
             ("Invalid date format: " ++ "Unknown string format: invalid-date")) }])
    ∧ (handle_search parseOnlyFix nowFix 100 (fun _ => ProviderOutcome.yields [])
        { query := "x", dateFrom := some "2022-01-01", dateTo := some "invalid-date" }
      = [{ type := "text",
           text := Payload.jsonDump (validationErrorJson
             ("Invalid date format: " ++ "Unknown string format: invalid-date")) }]) :=
  ⟨(c3_validation_error_amended parseFailAll nowFix 100 (fun _ => ProviderOutcome.yields [])
      { query := "x", dateFrom := some "invalid-date" }).1
    "invalid-date" "Unknown string format: invalid-date" rfl rfl rfl,
   (c3_validation_error_amended parseOnlyFix nowFix 100 (fun _ => ProviderOutcome.yields [])
      { query := "x", dateFrom := some "2022-01-01", dateTo := some "invalid-date" }).2
    "invalid-date" "Unknown string format: invalid-date" "202201010000" rfl rfl rfl rfl⟩

/-! ## Claim C8: every call path returns a well-formed response -/

theorem listStartsWith_append (pat rest : List Char) :
    listStartsWith (pat ++ rest) pat = true := by
  induction pat with
  | nil => cases rest <;> rfl
  | cons c t ih => simp [listStartsWith, ih]

/-- C8: for every input, every date-parser behaviour and every provider
behaviour (success, `ValueError`, or any other exception),
`handle_search` returns a list of exactly one text content carrying
either the JSON envelope, the validation-error object, or a
human-readable `Error: ` string — never an unhandled fault. -/
theorem c8_total_response (parse : DateParser) (now : PyDateTime) (ceiling : Int)
    (provider : ArxivSearch → ProviderOutcome) (args : SearchArguments) :
    isWellFormedResponse (handle_search parse now ceiling provider args) = true := by
  simp only [handle_search]
  cases hq : _build_query parse now args with
  | error e => simp [isWellFormedResponse, isValidationPayload, validationErrorJson]
  | ok q =>
    cases hp : provider { query := q, maxResults := clampMaxResults args.maxResults ceiling,
                          sortBy := resolveSortBy args.sortByMethod } with
    | yields papers =>
      simp [hp, isWellFormedResponse, isEnvelopePayload, envelopeJson]
    | raisesValueError m =>
      simp [hp, isWellFormedResponse, isValidationPayload, validationErrorJson]
    | raisesOther m =>
      simp [hp, isWellFormedResponse, isPlainErrorPayload, String.data_append]
      exact Or.inr (by simpa [String.data_append] using
        listStartsWith_append "Error: ".data m.data)

/-! ## Claim C9: URL encoding of the compiled query -/

theorem replaceSpacePlus_append (a b : String) :
    replaceSpacePlus (a ++ b) = replaceSpacePlus a ++ replaceSpacePlus b := by
  simp only [replaceSpacePlus, String.data_append, List.map_append]
  rfl

set_option maxRecDepth 4096 in
theorem quotePlus_byte : ∀ b, b < 256 →
    replaceSpacePlus (quoteByte (searchQuerySafe ++ [32]) b) = encodeSearchQueryByte b := by
  decide

theorem pyQuote_noSpace (bytes : List Nat) (h : bytes.contains 32 = false) :
    pyQuote searchQuerySafe bytes = specEncodeBytes bytes := by
  induction bytes with
  | nil => rfl
  | cons b rest ih =>
    simp only [List.contains_cons, Bool.or_eq_false_iff] at h
    obtain ⟨h1, h2⟩ := h
    have hbne : b ≠ 32 := by
      intro hb; rw [hb] at h1; simp at h1
    show quoteByte searchQuerySafe b ++ pyQuote searchQuerySafe rest = _
    rw [ih h2]
    show _ = encodeSearchQueryByte b ++ specEncodeBytes rest
    rw [encodeSearchQueryByte, if_neg hbne]

theorem pyQuote_space (bytes : List Nat) (hb : ∀ b ∈ bytes, b < 256) :
    replaceSpacePlus (pyQuote (searchQuerySafe ++ [32]) bytes) = specEncodeBytes bytes := by
  induction bytes with
  | nil => rfl
  | cons b rest ih =>
    show replaceSpacePlus
        (quoteByte (searchQuerySafe ++ [32]) b ++ pyQuote (searchQuerySafe ++ [32]) rest) = _
    rw [replaceSpacePlus_append, quotePlus_byte b (hb b (by simp)),
        ih (fun x hx => hb x (by simp [hx]))]
    rfl

/-- C9: the `search_query` encoding of `_format_url` maps each byte
independently, leaves the structural bytes `:`, `+`, `[`, `]` unencoded,
turns spaces into `+`, and percent-encodes every other RFC 3986 reserved
byte normally. -/
theorem c9_url_encoding :
    (∀ bytes : List Nat, (∀ b ∈ bytes, b < 256) →
        encodeSearchQuery bytes = specEncodeBytes bytes)
    ∧ encodeSearchQueryByte 58 = ":" ∧ encodeSearchQueryByte 43 = "+"
    ∧ encodeSearchQueryByte 91 = "[" ∧ encodeSearchQueryByte 93 = "]"
    ∧ encodeSearchQueryByte 32 = "+"
    ∧ (∀ b, b ∈ reservedBytes → ¬ b ∈ searchQuerySafe →
        encodeSearchQueryByte b = percentEncodeByte b) := by
  refine ⟨?_, by decide, by decide, by decide, by decide, by decide, by decide⟩
  intro bytes hb
  rw [encodeSearchQuery, pyQuotePlus]
  by_cases hc : bytes.contains 32 = true
  · simp only [hc, if_true]
    exact pyQuote_space bytes hb
  · simp only [hc, if_false]
    exact pyQuote_noSpace bytes (by simpa using hc)

/-- C9 (witness): the byte-wise encoding on the bytes of `a b/c`, and the
percent-encoding of the reserved byte `/`. -/
theorem c9_url_encoding_witness :
    encodeSearchQuery [97, 32, 98, 47, 99] = specEncodeBytes [97, 32, 98, 47, 99]
    ∧ encodeSearchQueryByte 47 = percentEncodeByte 47 :=
  ⟨c9_url_encoding.1 [97, 32, 98, 47, 99] (by decide),
   c9_url_encoding.2.2.2.2.2.2 47 (by decide) (by decide)⟩

end ArxivMcp
